import Mathlib

/-!
Verification of the OAS-to-HTML batch converter (fetcher.py, auth.py,
converter.py, batch_convert.py, lambda/lambda_function.py,
.github/scripts/process_oas.py) against its natural-language specification.

The Python modules are shallowly embedded: external effects (HTTP requests,
the blob store, the secret store, the external rendering subprocess, process
environment variables) are supplied by explicit environment records, and each
Python function becomes a Lean function from its environment and arguments to
the dictionary it returns.  Python exceptions are modelled with `Except`:
a raised exception travels as `Except.error` until a `try/except` boundary of
the source catches it.  Result dictionaries become structures whose fields
default to `""`/`0` for keys the corresponding code path does not set; the
claims only inspect keys the code does set.  Wall-clock durations
(`time.time()` deltas) are not modelled; no claim depends on them.

String primitives of Python (`str.strip`, `str.rstrip('.')`, `str.split`,
`str.replace`, `str.startswith`, `str.endswith`) are implemented over
`List Char` by structural recursion so that concrete runs reduce inside the
kernel.
-/

/-! ## Python string primitives -/

/-- Python truthiness of an optional string (`None` and `""` are falsy,
as in `if not token_url:` / `if not client_id or not client_secret:`). -/
def pyTruthy : Option String → Bool
  | none => false
  | some s => s ≠ ""

/-- The whitespace characters stripped by Python `str.strip()` (ASCII set:
space, tab, newline, carriage return, vertical tab, form feed; the claims
never exercise non-ASCII whitespace). -/
def pyIsSpace (c : Char) : Bool :=
  c = ' ' || c = '\t' || c = '\n' || c = '\r' || c = '\x0b' || c = '\x0c'

/-- Python `str.strip()`: remove leading and trailing whitespace. -/
def pyStrip (s : String) : String :=
  String.mk (((s.toList.dropWhile pyIsSpace).reverse.dropWhile pyIsSpace).reverse)

/-- Python `str.rstrip('.')`: remove trailing `'.'` characters
(fetcher.py line 248). -/
def pyRstripDots (s : String) : String :=
  String.mk ((s.toList.reverse.dropWhile (fun c => c = '.')).reverse)

/-- Python `str.startswith(p)`. -/
def pyStartsWith (s p : String) : Bool :=
  p.toList.isPrefixOf s.toList

/-- Python `str.endswith(p)`. -/
def pyEndsWith (s p : String) : Bool :=
  p.toList.isSuffixOf s.toList

/-- Splitting on a single separator character, as Python `str.split(sep)`
with a one-character separator: empty pieces are kept. -/
def pySplitCharAux (sep : Char) : List Char → List Char → List String
  | [], acc => [String.mk acc.reverse]
  | c :: rest, acc =>
    if c = sep then String.mk acc.reverse :: pySplitCharAux sep rest []
    else pySplitCharAux sep rest (c :: acc)

/-- Python `s.split('\n')`. -/
def pySplitNewline (s : String) : List String :=
  pySplitCharAux '\n' s.toList []

/-- One left-to-right pass of Python `str.replace` over the character list:
at each position, when the (non-empty) pattern is a prefix, emit the
replacement and skip the pattern; otherwise keep the character and advance.
`fuel` bounds the number of steps (one unit per consumed character). -/
def pyReplaceAux (pat rep : List Char) : Nat → List Char → List Char
  | 0, s => s
  | _ + 1, [] => []
  | fuel + 1, c :: rest =>
    if pat.isPrefixOf (c :: rest) then
      rep ++ pyReplaceAux pat rep fuel (List.drop (pat.length - 1) rest)
    else
      c :: pyReplaceAux pat rep fuel rest

/-- Python `s.replace(pat, rep)` for a non-empty pattern: replace every
non-overlapping occurrence, scanning left to right. -/
def pyReplace (s pat rep : String) : String :=
  String.mk (pyReplaceAux pat.toList rep.toList s.toList.length s.toList)

/-- Python `url.split('/')[-1]` (fetcher.py line 89): the last
slash-separated segment; `split` always yields at least one piece. -/
def lastSegment (url : String) : String :=
  (pySplitCharAux '/' url.toList []).getLastD ""

/-! ## Python exceptions and call semantics -/

/-- A Python exception value, as far as the embedded code distinguishes them.
`str(e)` is the carried message. -/
inductive PyExn where
  | typeError (msg : String)
  | fileNotFound (msg : String)
  deriving Repr, DecidableEq

/-- Python `str(e)` on a caught exception. -/
def PyExn.str : PyExn → String
  | .typeError m => m
  | .fileNotFound m => m

/-- Python call semantics for positional arguments: a call evaluates the
argument list, and when its length differs from the parameter count of the
called function's definition, raises `TypeError` before the body runs. -/
def pyCall (fname : String) (arity nargs : Nat) (v : α) : Except PyExn α :=
  if nargs = arity then .ok v
  else
    .error (.typeError
      (fname ++ "() takes " ++ toString arity ++
        " positional arguments but " ++ toString nargs ++ " was given"))

/-! ## Source List Loader (fetcher.py, `fetch_urls_from_file`) -/

/-- The URL-parsing loop of `fetch_urls_from_file` (fetcher.py lines 242-249):
per line, `line = line.strip()`; `if line and not line.startswith('#')` keep
`line.rstrip('.')`. -/
def parseUrlsLoop : List String → List String
  | [] => []
  | l :: rest =>
    let line := pyStrip l
    if line ≠ "" && !(pyStartsWith line "#") then
      pyRstripDots line :: parseUrlsLoop rest
    else
      parseUrlsLoop rest

/-- `fetch_urls_from_file`'s parsing of the file content (fetcher.py lines
241-249): `content.strip().split('\n')`, then the per-line loop. -/
def fetch_urls_parse (content : String) : List String :=
  parseUrlsLoop (pySplitNewline (pyStrip content))

/-- Result dictionary of `fetch_urls_from_file`. -/
structure UrlsResult where
  success : Bool
  urls : List String := []
  count : Nat := 0
  error : String := ""
  deriving Repr, DecidableEq

/-- `fetch_urls_from_file` (fetcher.py lines 186-266).  Reading the bytes of
the local file or S3 object is external I/O, supplied as `readOutcome`
(content on success, the formatted error string of lines 222/231/261 on
failure). -/
def fetch_urls_from_file (readOutcome : Except String String) : UrlsResult :=
  match readOutcome with
  | .error e => { success := false, error := e }
  | .ok content =>
    let urls := fetch_urls_parse content
    { success := true, urls := urls, count := urls.length }

/-! ## Output naming (lambda_function.py line 287, batch_convert.py line 65) -/

/-- `lambda_function.py` line 287: `fetch_result['filename'].replace('.yaml',
'.html').replace('.yml', '.html').replace('.json', '.html')`.  Python
`str.replace` replaces every occurrence of the substring, not only a final
extension. -/
def html_filename (filename : String) : String :=
  pyReplace (pyReplace (pyReplace filename ".yaml" ".html") ".yml" ".html") ".json" ".html"

/-- `lambda_function.py` line 288: `s3_key = f"html/{html_filename}"`. -/
def s3_key_for (filename : String) : String :=
  "html/" ++ html_filename filename

/-- `batch_convert.py` line 65: `result['filename'].replace('.yaml',
'.html').replace('.json', '.html')` — note `.yml` is not replaced there. -/
def batch_convert_output_name (filename : String) : String :=
  pyReplace (pyReplace filename ".yaml" ".html") ".json" ".html"

/-- Modelled from the spec: "the output key is derived by replacing the
source's extension (`.yaml`/`.yml`/`.json`) with `.html`", preserving the
base name.  Stated for comparison with the code's naming functions. -/
def spec_replace_extension (filename : String) : String :=
  if pyEndsWith filename ".yaml" then String.mk (filename.toList.take (filename.toList.length - 5)) ++ ".html"
  else if pyEndsWith filename ".yml" then String.mk (filename.toList.take (filename.toList.length - 4)) ++ ".html"
  else if pyEndsWith filename ".json" then String.mk (filename.toList.take (filename.toList.length - 5)) ++ ".html"
  else filename

/-! ## Authentication module (auth.py) -/

/-- `{client_id, client_secret}` as returned by the credential helpers. -/
structure Credentials where
  client_id : String
  client_secret : String
  deriving Repr, DecidableEq

/-- Outcome of the `GetSecretValue` call and of parsing the secret string
(auth.py lines 67-109): on success, the values of the two keys of the parsed
JSON object when present. -/
inductive SecretsOutcome where
  | ok (client_id : Option String) (client_secret : Option String)
  | resourceNotFound
  | invalidRequest
  | invalidParameter
  | accessDenied
  | otherClientError (msg : String)
  deriving Repr, DecidableEq

/-- Outcome of the single `requests.post` to the token endpoint
(auth.py lines 185-196): the parsed response, or a network-level
`RequestException`. -/
inductive TokenPostOutcome where
  | response (status : Nat) (text : String) (access_token : Option String)
      (token_type : Option String) (expires_in : Option Nat)
  | requestError (msg : String)
  deriving Repr, DecidableEq

/-- The process environment and external collaborators consulted by auth.py. -/
structure AuthEnv where
  awsLambdaFunctionName : Option String
  clientIdEnv : Option String
  clientSecretEnv : Option String
  awsRegion : Option String
  secrets : SecretsOutcome
  tokenPost : TokenPostOutcome
  deriving Repr, DecidableEq

/-- The message of the exception raised by `_get_credentials_from_env`
(auth.py lines 136-141) when a variable is missing. -/
def missingEnvCredsMsg : String :=
  "CLIENT_ID and CLIENT_SECRET environment variables must be set.\n" ++
  "Set them with:\n" ++
  "  export CLIENT_ID='your_client_id'\n" ++
  "  export CLIENT_SECRET='your_client_secret'"

/-- `_get_credentials_from_env` (auth.py lines 125-148): raises (modelled as
`.error` carrying the message) unless both variables are set and non-empty. -/
def get_credentials_from_env (env : AuthEnv) : Except String Credentials :=
  if !pyTruthy env.clientIdEnv || !pyTruthy env.clientSecretEnv then
    .error missingEnvCredsMsg
  else
    .ok ⟨env.clientIdEnv.getD "", env.clientSecretEnv.getD ""⟩

/-- Expected-format fragment of the missing-key messages (auth.py
lines 103, 108). -/
def secretFormatMsg : String :=
  "Expected format: \x7b\"client_id\": \"...\", \"client_secret\": \"...\"\x7d"

/-- `_get_credentials_from_secrets_manager` (auth.py lines 39-122): maps the
client-error codes to the raised messages, and validates that both hardcoded
keys are present in the parsed secret. -/
def get_credentials_from_secrets_manager (env : AuthEnv) : Except String Credentials :=
  let region := env.awsRegion.getD "us-east-1"
  match env.secrets with
  | .resourceNotFound =>
    .error ("Secret 'token_cred' not found in Secrets Manager (Region: " ++ region ++
      "). Run './setup-secret.sh' to create it.")
  | .invalidRequest => .error "Invalid request for secret 'token_cred'"
  | .invalidParameter => .error "Invalid parameter for secret 'token_cred'"
  | .accessDenied =>
    .error ("Access denied to secret 'token_cred'. " ++
      "Ensure Lambda execution role has 'secretsmanager:GetSecretValue' permission.")
  | .otherClientError m => .error ("Error retrieving secret: " ++ m)
  | .ok cid csec =>
    match cid with
    | none => .error ("Secret 'token_cred' missing 'client_id' key. " ++ secretFormatMsg)
    | some i =>
      match csec with
      | none => .error ("Secret 'token_cred' missing 'client_secret' key. " ++ secretFormatMsg)
      | some s => .ok ⟨i, s⟩

/-- `get_credentials` (auth.py lines 23-36): the managed-environment marker
`AWS_LAMBDA_FUNCTION_NAME` deterministically selects the secret store or the
environment variables. -/
def get_credentials (env : AuthEnv) : Except String Credentials :=
  if pyTruthy env.awsLambdaFunctionName then get_credentials_from_secrets_manager env
  else get_credentials_from_env env

/-- Result dictionary of `generate_bearer_token`. -/
structure TokenResult where
  success : Bool
  token : String := ""
  expires_in : Option Nat := none
  token_type : String := ""
  error : String := ""
  deriving Repr, DecidableEq

/-- The number of parameters in the definition of `generate_bearer_token`
(auth.py line 151: `def generate_bearer_token() -> Dict[str, any]:`). -/
def generate_bearer_token_paramCount : Nat := 0

/-- `generate_bearer_token` (auth.py lines 151-252).  Returns the result
dictionary together with the number of HTTP requests issued to the token
endpoint (0 or 1), so that "no token request is attempted" is stated
directly.  The enclosing `try/except` turns a credentials exception into a
`{'success': False, 'error': 'Token generation failed: ...'}` dictionary
before any `requests.post`. -/
def generate_bearer_token (env : AuthEnv) : TokenResult × Nat :=
  match get_credentials env with
  | .error m => ({ success := false, error := "Token generation failed: " ++ m }, 0)
  | .ok _creds =>
    match env.tokenPost with
    | .requestError m => ({ success := false, error := "Request failed: " ++ m }, 1)
    | .response status text atk ttype eseconds =>
      if status ≠ 200 then
        ({ success := false,
           error := "Token request failed: " ++ toString status ++ " - " ++ text }, 1)
      else
        match atk with
        | none => ({ success := false, error := "No access_token in response" }, 1)
        | some tok =>
          ({ success := true, token := tok, expires_in := eseconds,
             token_type := ttype.getD "Bearer" }, 1)

/-! ## Document Fetcher (fetcher.py, `fetch_oas_from_url`) -/

/-- Outcome of the single `requests.get(url, ...)` call (fetcher.py line 82)
as classified by the `except` clauses of lines 109-131: a 2xx body, a bad
status (raised by `raise_for_status`), a timeout, or another request
failure. -/
inductive HttpGetOutcome where
  | ok (body : String) (contentType : Option String)
  | httpError (status : Nat) (reason : String)
  | timeout
  | requestError (msg : String)
  deriving Repr, DecidableEq

/-- Result dictionary of `fetch_oas_from_url` (and of `fetch_oas_from_file`);
the batch loop later adds the `url` key (fetcher.py line 319). -/
structure FetchResult where
  success : Bool
  content : String := ""
  filename : String := ""
  size : Nat := 0
  content_type : String := ""
  error : String := ""
  url : String := ""
  deriving Repr, DecidableEq

/-- Environment of one `fetch_oas_from_url` call: whether `from auth import
generate_bearer_token` succeeded at module load (fetcher.py lines 11-15), the
`TOKEN_URL` environment variable, the auth module's own environment, and this
call's HTTP outcome. -/
structure FetchEnv where
  authAvailable : Bool
  tokenUrlEnv : Option String
  auth : AuthEnv
  http : HttpGetOutcome
  deriving Repr, DecidableEq

/-- What `fetch_oas_from_url` returns, together with the number of times the
call expression `generate_bearer_token(token_url)` (fetcher.py line 68) was
evaluated during it. -/
structure FetchCallOut where
  result : Except PyExn FetchResult
  tokenCalls : Nat
  deriving Repr

/-- A failure dictionary `{'success': False, 'error': e}`. -/
def fetchFailure (e : String) : FetchResult :=
  { success := false, error := e }

/-- The `requests.get` part of `fetch_oas_from_url` (fetcher.py lines 82-131):
build the success dictionary, or one of the three caught-exception failure
dictionaries. -/
def fetchGet (env : FetchEnv) (url : String) (timeout : Nat) : FetchResult :=
  match env.http with
  | .ok body ct =>
    let fname := lastSegment url
    let filename := if fname = "" then "openapi.json" else fname
    { success := true, content := body, filename := filename,
      size := body.length, content_type := ct.getD "unknown" }
  | .httpError status reason =>
    fetchFailure ("HTTP error: " ++ toString status ++ " - " ++ reason)
  | .timeout =>
    fetchFailure ("Request timed out after " ++ toString timeout ++ " seconds")
  | .requestError m =>
    fetchFailure ("Request failed: " ++ m)

/-- `fetch_oas_from_url` (fetcher.py lines 18-131).  When authentication is
requested the code evaluates `generate_bearer_token(token_url)` (line 68);
auth.py line 151 defines `generate_bearer_token` with zero parameters, so by
Python call semantics (`pyCall`) this raises `TypeError`, which none of the
`except requests.exceptions.*` clauses of lines 109-131 catch, so it
propagates out of the function. -/
def fetch_oas_from_url (env : FetchEnv) (url : String) (timeout : Nat := 30)
    (use_auth : Bool := false) (token_url : Option String := none) : FetchCallOut :=
  if use_auth then
    if !env.authAvailable then
      ⟨.ok (fetchFailure "Authentication requested but auth module not available"), 0⟩
    else
      let tokenUrl := if pyTruthy token_url then token_url else env.tokenUrlEnv
      if !pyTruthy tokenUrl then
        ⟨.ok (fetchFailure "TOKEN_URL not provided and not found in environment"), 0⟩
      else
        match pyCall "generate_bearer_token" generate_bearer_token_paramCount 1
            (generate_bearer_token env.auth) with
        | .error e => ⟨.error e, 1⟩
        | .ok (tokenResult, _posts) =>
          if !tokenResult.success then
            ⟨.ok (fetchFailure ("Failed to generate token: " ++ tokenResult.error)), 1⟩
          else
            ⟨.ok (fetchGet env url timeout), 1⟩
  else
    ⟨.ok (fetchGet env url timeout), 0⟩

/-! ## Conversion Adapter (converter.py) -/

/-- Outcome of the `subprocess.run` invocation of the rendering tool
(converter.py lines 144-155): completion with an exit status and captured
output, or `subprocess.TimeoutExpired`. -/
inductive ToolRun where
  | timeoutExpired
  | completed (returncode : Nat) (stdoutText stderrText : String)
  deriving Repr, DecidableEq

/-- External behaviour of one `OASConverter.convert` call: whether
`_setup_environment` raised `FileNotFoundError` at construction (converter.py
lines 30-98), whether writing the temp file raised, how the tool ran, and
whether/what it left at the expected output path. -/
structure ConvEnv where
  setupError : Option String
  writeError : Option String
  run : ToolRun
  outputExists : Bool
  outputContent : String
  deriving Repr, DecidableEq

/-- Result dictionary of `OASConverter.convert` (duration omitted: wall
clock). -/
structure ConvResult where
  success : Bool
  html_content : String := ""
  output_size : Nat := 0
  stderrText : String := ""
  stdoutText : String := ""
  error : String := ""
  deriving Repr, DecidableEq

namespace OASConverter

/-- `OASConverter.convert` (converter.py lines 100-225), after a successful
`_setup_environment`: non-zero exit status, missing output file and timeout
each yield their distinct failure dictionary; only an existing output file
after exit status 0 yields success. -/
def convert (env : ConvEnv) (_oas_content : String) (_filename : String)
    (timeout : Nat := 60) : ConvResult :=
  match env.writeError with
  | some m => { success := false, error := "Conversion failed: " ++ m }
  | none =>
    match env.run with
    | .timeoutExpired =>
      { success := false,
        error := "Conversion timed out after " ++ toString timeout ++ " seconds" }
    | .completed returncode stdoutText stderrText =>
      if returncode ≠ 0 then
        { success := false,
          error := "Conversion failed with return code " ++ toString returncode,
          stderrText := stderrText, stdoutText := stdoutText }
      else if !env.outputExists then
        { success := false, error := "Output HTML file was not created" }
      else
        { success := true, html_content := env.outputContent,
          output_size := env.outputContent.length }

end OASConverter

/-- `convert_oas` (converter.py lines 228-241): constructs an `OASConverter`
— whose `_setup_environment` raises `FileNotFoundError` when no Node.js
environment or CLI is found — and calls `convert`. -/
def convert_oas (env : ConvEnv) (oas_content : String) (filename : String) :
    Except PyExn ConvResult :=
  match env.setupError with
  | some m => .error (.fileNotFound m)
  | none => .ok (OASConverter.convert env oas_content filename 60)

/-! ## Batch fetch (fetcher.py, `fetch_all_from_urls_file`) -/

/-- Environment of one `fetch_all_from_urls_file` run: the source-list read
outcome, the module-level auth flags, and per-item (indexed by position in
the URL list, 0-based) the HTTP outcome and auth environment of that item's
`fetch_oas_from_url` call. -/
structure FetcherBatchEnv where
  load : Except String String
  authAvailable : Bool
  tokenUrlEnv : Option String
  auth : Nat → AuthEnv
  http : Nat → HttpGetOutcome

/-- Per-item `FetchEnv` of the `i`-th loop iteration. -/
def FetcherBatchEnv.fetchEnv (env : FetcherBatchEnv) (i : Nat) : FetchEnv :=
  ⟨env.authAvailable, env.tokenUrlEnv, env.auth i, env.http i⟩

/-- Result dictionary of `fetch_all_from_urls_file`. -/
structure BatchFetchResult where
  success : Bool
  results : List FetchResult := []
  total : Nat := 0
  successful : Nat := 0
  failed : Nat := 0
  error : String := ""
  deriving Repr, DecidableEq

/-- The `for i, url in enumerate(urls, 1)` loop of `fetch_all_from_urls_file`
(fetcher.py lines 315-327): each iteration fetches, tags the result with its
URL, appends it, and bumps one counter.  The loop body has no `try/except`,
so an exception raised by `fetch_oas_from_url` propagates and aborts the
whole run; the second component counts evaluations of the token call. -/
def fetchAllLoop (env : FetcherBatchEnv) (timeout : Nat) (use_auth : Bool)
    (token_url : Option String) :
    List String → Nat → Except PyExn (List FetchResult × Nat × Nat) × Nat
  | [], _ => (.ok ([], 0, 0), 0)
  | url :: rest, i =>
    let fc := fetch_oas_from_url (env.fetchEnv i) url timeout use_auth token_url
    match fc.result with
    | .error e => (.error e, fc.tokenCalls)
    | .ok r =>
      let tail := fetchAllLoop env timeout use_auth token_url rest (i + 1)
      (match tail.1 with
       | .error e => .error e
       | .ok (rs, succ, fail) =>
         .ok ({ r with url := url } :: rs,
              (if r.success then succ + 1 else succ),
              (if r.success then fail else fail + 1)),
       fc.tokenCalls + tail.2)

/-- `fetch_all_from_urls_file` (fetcher.py lines 269-343), with the total
count of evaluations of the `generate_bearer_token(...)` call expression
across the run as second component. -/
def fetch_all_from_urls_file (env : FetcherBatchEnv) (timeout : Nat := 30)
    (use_auth : Bool := false) (token_url : Option String := none) :
    Except PyExn BatchFetchResult × Nat :=
  let urlsResult := fetch_urls_from_file env.load
  if !urlsResult.success then
    (.ok { success := false, error := urlsResult.error }, 0)
  else
    let urls := urlsResult.urls
    let lp := fetchAllLoop env timeout use_auth token_url urls 0
    (match lp.1 with
     | .error e => .error e
     | .ok (results, successful, failed) =>
       .ok { success := true, results := results, total := urls.length,
             successful := successful, failed := failed }, lp.2)

/-! ## Lambda batch orchestrator (lambda_function.py) -/

/-- Result dictionary of `_upload_to_s3` (lambda_function.py lines 367-437);
the function catches all its exceptions itself. -/
structure UploadResult where
  success : Bool
  error : String := ""
  deriving Repr, DecidableEq

/-- Per-item external behaviour in `_batch_process_from_s3`: the HTTP and
auth environments of that item's fetch, the conversion environment, and its
upload outcome. -/
structure ItemEnv where
  http : HttpGetOutcome
  auth : AuthEnv
  conv : ConvEnv
  upload : UploadResult
  deriving Repr, DecidableEq

/-- One entry of the `results` list built by `_batch_process_from_s3`
(duration omitted: wall clock). -/
structure ItemRecord where
  url : String
  success : Bool
  filename : String := ""
  error : String := ""
  s3_url : String := ""
  s3_key : String := ""
  html_size : Nat := 0
  deriving Repr, DecidableEq

/-- Environment of one `_batch_process_from_s3` run. -/
structure LambdaBatchEnv where
  authAvailable : Bool
  tokenUrlEnv : Option String
  load : Except String String
  item : Nat → ItemEnv

/-- The body of the per-item `try` block of `_batch_process_from_s3`
(lambda_function.py lines 250-327): fetch (timeout 30, `token_url` omitted),
convert, derive the output key, upload; any exception is caught by the
per-item `except Exception` (lines 320-327) and recorded as that item's
failure.  Also returns this item's count of token-call evaluations. -/
def lambdaItemRecord (bucket : String) (ie : ItemEnv) (url : String) :
    Except PyExn FetchResult → ItemRecord
  | .error e => { url := url, success := false, error := e.str }
  | .ok fr =>
    if !fr.success then
      { url := url, success := false, error := fr.error }
    else
      match convert_oas ie.conv fr.content fr.filename with
      | .error e => { url := url, success := false, error := e.str }
      | .ok cr =>
        if !cr.success then
          { url := url, filename := fr.filename, success := false, error := cr.error }
        else
          let key := s3_key_for fr.filename
          if !ie.upload.success then
            { url := url, filename := fr.filename, success := false,
              error := ie.upload.error }
          else
            { url := url, filename := fr.filename, success := true,
              s3_url := "s3://" ++ bucket ++ "/" ++ key, s3_key := key,
              html_size := cr.output_size }

/-- One iteration's record and token-call count: the fetch is performed once
and its result classified by `lambdaItemRecord`. -/
def lambdaProcessItem (authAvailable : Bool) (tokenUrlEnv : Option String)
    (use_auth : Bool) (bucket : String) (ie : ItemEnv) (url : String) :
    ItemRecord × Nat :=
  let fc := fetch_oas_from_url ⟨authAvailable, tokenUrlEnv, ie.auth, ie.http⟩
    url 30 use_auth none
  (lambdaItemRecord bucket ie url fc.result, fc.tokenCalls)

/-- The `for i, url in enumerate(urls, 1)` loop of `_batch_process_from_s3`
(lambda_function.py lines 243-327): accumulates the `results` list and the
`successful`/`failed` counters; last component counts token-call
evaluations across the run. -/
def lambdaLoop (env : LambdaBatchEnv) (use_auth : Bool) (bucket : String) :
    List String → Nat → List ItemRecord × Nat × Nat × Nat
  | [], _ => ([], 0, 0, 0)
  | url :: rest, i =>
    let pr := lambdaProcessItem env.authAvailable env.tokenUrlEnv use_auth
      bucket (env.item i) url
    let tail := lambdaLoop env use_auth bucket rest (i + 1)
    (pr.1 :: tail.1, (if pr.1.success then tail.2.1 + 1 else tail.2.1),
     (if pr.1.success then tail.2.2.1 else tail.2.2.1 + 1), pr.2 + tail.2.2.2)

/-- The body of a Lambda response, structurally (`json.dumps` serialization
is out of scope). -/
inductive ResponseBody where
  | batchReport (message : String) (s3_bucket : String) (total_urls : Nat)
      (successful : Nat) (failed : Nat) (results : List ItemRecord)
  | loadFailed (error : String)
  | skipped (message : String) (file : String)
  | invalidEvent
  | handlerError (error : String) (typeName : String)
  deriving Repr, DecidableEq

/-- A Lambda response: status code and body. -/
structure LambdaResponse where
  statusCode : Nat
  body : ResponseBody
  deriving Repr, DecidableEq

/-- The `event` dictionary of `_batch_process_from_s3`, with the keys it
reads (missing keys are `none`). -/
structure BatchEvent where
  s3_bucket : String
  urls_file : Option String := none
  verbose : Option Bool := none
  use_auth : Option Bool := none
  deriving Repr, DecidableEq

/-- `_batch_process_from_s3` (lambda_function.py lines 205-364): read the
source list from S3 (404 on failure), loop over the URLs, and return a
200 response carrying the counts and per-item results.  Second component:
token-call evaluations during the run. -/
def batch_process_from_s3 (env : LambdaBatchEnv) (event : BatchEvent) :
    LambdaResponse × Nat :=
  let urls_file := event.urls_file.getD "urls.txt"
  let use_auth := event.use_auth.getD false
  let urlsResult := fetch_urls_from_file env.load
  if !urlsResult.success then
    (⟨404, .loadFailed ("Failed to read " ++ urls_file ++ ": " ++ urlsResult.error)⟩, 0)
  else
    let lp := lambdaLoop env use_auth event.s3_bucket urlsResult.urls 0
    (⟨200, .batchReport "Batch processing complete" event.s3_bucket
        urlsResult.urls.length lp.2.1 lp.2.2.1 lp.1⟩, lp.2.2.2)

/-- One record of an S3 event notification, with the fields the handler
reads (`record['s3']['bucket']['name']`, `record['s3']['object']['key']`). -/
structure S3Record where
  bucket : String
  key : String
  deriving Repr, DecidableEq

/-- The handler's event dictionary: `Records` when present selects Mode 1,
otherwise `s3_bucket` selects Mode 2 (missing keys are `none`). -/
structure LambdaEvent where
  records : Option (List S3Record) := none
  s3_bucket : Option String := none
  urls_file : Option String := none
  use_auth : Option Bool := none
  verbose : Option Bool := none

/-- `lambda_handler` (lambda_function.py lines 17-131).  Mode 1 takes
`event['Records'][0]` — an empty list raises `IndexError`, caught by the
outer `except Exception` into a 500 response — checks that the first
record's key ends in `urls.txt`, and hands a batch event built from that
record alone to `_batch_process_from_s3`; `use_auth` is not set in Mode 1
(lines 90-94), so it defaults to false there. -/
def lambda_handler (env : LambdaBatchEnv) (event : LambdaEvent) :
    LambdaResponse × Nat :=
  match event.records with
  | some [] => (⟨500, .handlerError "list index out of range" "IndexError"⟩, 0)
  | some (r :: _) =>
    if !(pyEndsWith r.key "urls.txt") then
      (⟨200, .skipped "Skipped - only urls.txt files are processed" r.key⟩, 0)
    else
      batch_process_from_s3 env ⟨r.bucket, some r.key, some false, none⟩
  | none =>
    match event.s3_bucket with
    | some bucket =>
      batch_process_from_s3 env ⟨bucket, event.urls_file, event.verbose, event.use_auth⟩
    | none => (⟨400, .invalidEvent⟩, 0)

/-! ## CLI batch converter (batch_convert.py) -/

/-- Environment of one `batch_convert.main` run: whether `urls.txt` exists,
the fetch batch's environment, and per result-list position the conversion
environment and the outcome of writing the output file (the message of the
raised exception, if any; the write is wrapped in its own `try/except`,
lines 67-76). -/
structure BatchConvertEnv where
  urlsTxtExists : Bool
  fetch : FetcherBatchEnv
  conv : Nat → ConvEnv
  save : Nat → Option String

/-- Outcome of a `batch_convert.main` run: either an exit before the final
summary (missing `urls.txt`, failed URL read, or an uncaught exception
reaching the `except Exception: sys.exit(1)` of `__main__`), or the final
summary counters together with the process exit status of lines 92-97
(`sys.exit(0)` iff `converted > 0`). -/
inductive BatchConvertOut where
  | earlyExit (code : Nat)
  | report (total fetched converted failed : Nat) (exitCode : Nat)
  deriving Repr, DecidableEq

/-- The conversion loop of `batch_convert.main` (lines 48-79): per fetch
result, a failed fetch counts `failed`; otherwise convert — `convert_oas`
may raise, which nothing in `main` catches — then write the output file
(its `except` counts a failed save as `failed`), counting `converted` on
success. -/
def batchConvertLoop (env : BatchConvertEnv) :
    List FetchResult → Nat → Except PyExn (Nat × Nat)
  | [], _ => .ok (0, 0)
  | r :: rest, i =>
    if !r.success then
      match batchConvertLoop env rest (i + 1) with
      | .error e => .error e
      | .ok (conv, fail) => .ok (conv, fail + 1)
    else
      match convert_oas (env.conv i) r.content r.filename with
      | .error e => .error e
      | .ok cr =>
        match batchConvertLoop env rest (i + 1) with
        | .error e => .error e
        | .ok (conv, fail) =>
          if cr.success then
            match env.save i with
            | some _ => .ok (conv, fail + 1)
            | none => .ok (conv + 1, fail)
          else
            .ok (conv, fail + 1)

/-- `batch_convert.main` (batch_convert.py lines 13-97) under the `__main__`
wrapper (lines 100-110): exit 1 when `urls.txt` is missing, when the URL
read fails, or when an exception escapes `main`; otherwise the summary of
line 85-88 and the exit policy of lines 92-97. -/
def batch_convert_main (env : BatchConvertEnv) : BatchConvertOut :=
  if !env.urlsTxtExists then .earlyExit 1
  else
    match (fetch_all_from_urls_file env.fetch).1 with
    | .error _ => .earlyExit 1
    | .ok fr =>
      if !fr.success then .earlyExit 1
      else
        match batchConvertLoop env fr.results 0 with
        | .error _ => .earlyExit 1
        | .ok cf =>
          .report fr.total fr.successful cf.1 cf.2 (if cf.1 > 0 then 0 else 1)

/-! ## GitHub Actions batch script (.github/scripts/process_oas.py) -/

/-- Modelled from the spec: the result of `convert_oas_to_html`, which
process_oas.py imports from `converter` but which converter.py does not
define (the module only defines `convert_oas`); per the spec's Conversion
Adapter contract the call yields success with the rendered HTML and the
derived output filename, or a typed failure. -/
structure SpecConvResult where
  success : Bool
  html : String := ""
  filename : String := ""
  error : String := ""
  deriving Repr, DecidableEq

/-- Environment of one `process_oas.main` run. -/
structure ProcessOasEnv where
  load : Except String String
  use_auth : Bool
  authAvailable : Bool
  tokenUrlEnv : Option String
  auth : Nat → AuthEnv
  http : Nat → HttpGetOutcome
  convHtml : Nat → Except PyExn SpecConvResult
  save : Nat → Option String
  uploadOk : Nat → Bool

/-- The per-item loop of `process_oas.main` (lines 97-177): the whole item
body sits in a `try/except Exception`, so a raising fetch, conversion or
local save counts that item as failed and the loop continues; the S3 upload
result does not enter the counters. -/
def processOasLoop (env : ProcessOasEnv) : List String → Nat → Nat × Nat
  | [], _ => (0, 0)
  | url :: rest, i =>
    let (succ, fail) := processOasLoop env rest (i + 1)
    let fc := fetch_oas_from_url ⟨env.authAvailable, env.tokenUrlEnv, env.auth i, env.http i⟩
      url 30 env.use_auth none
    match fc.result with
    | .error _ => (succ, fail + 1)
    | .ok fr =>
      if !fr.success then (succ, fail + 1)
      else
        match env.convHtml i with
        | .error _ => (succ, fail + 1)
        | .ok cr =>
          if !cr.success then (succ, fail + 1)
          else
            match env.save i with
            | some _ => (succ, fail + 1)
            | none => (succ + 1, fail)

/-- Outcome of a `process_oas.main` run. -/
inductive ProcessOasOut where
  | earlyExit (code : Nat)
  | report (total successful failed : Nat) (exitCode : Nat)
  deriving Repr, DecidableEq

/-- `process_oas.main` (lines 48-221): exit 1 when the URL read fails;
otherwise run the loop and exit 1 iff `failed > 0` (lines 219-220). -/
def process_oas_main (env : ProcessOasEnv) : ProcessOasOut :=
  let urlsResult := fetch_urls_from_file env.load
  if !urlsResult.success then .earlyExit 1
  else
    let sf := processOasLoop env urlsResult.urls 0
    .report urlsResult.urls.length sf.1 sf.2 (if sf.2 > 0 then 1 else 0)

/-! ## Shared concrete environments for witnesses and counterexamples -/

/-- The message of the `TypeError` raised by evaluating
`generate_bearer_token(token_url)` against the zero-parameter definition. -/
def tokenArityMsg : String :=
  "generate_bearer_token() takes 0 positional arguments but 1 was given"

/-- A token endpoint that would answer successfully. -/
def sampleTokenPost : TokenPostOutcome :=
  .response 200 "" (some "tok") (some "Bearer") (some 3600)

/-- A local (non-managed) auth environment with both variables set. -/
def sampleAuthEnv : AuthEnv :=
  ⟨none, some "an_id", some "a_secret", none, .ok (some "an_id") (some "a_secret"),
    sampleTokenPost⟩

/-- A conversion environment in which the tool succeeds and leaves output. -/
def goodConvEnv : ConvEnv := ⟨none, none, .completed 0 "" "", true, "<html></html>"⟩

/-- A per-item environment in which fetch, conversion and upload succeed. -/
def goodItemEnv : ItemEnv :=
  ⟨.ok "{}" (some "application/json"), sampleAuthEnv, goodConvEnv, { success := true }⟩

/-- The same item environment, with the fetch timing out. -/
def timeoutItemEnv : ItemEnv := { goodItemEnv with http := .timeout }

/-- Projection of a batch report's result list (empty for other bodies). -/
def LambdaResponse.reportResults : LambdaResponse → List ItemRecord
  | ⟨_, .batchReport _ _ _ _ _ rs⟩ => rs
  | _ => []

/-- Projection of a batch report's `total_urls` (0 for other bodies). -/
def LambdaResponse.reportTotal : LambdaResponse → Nat
  | ⟨_, .batchReport _ _ t _ _ _⟩ => t
  | _ => 0

/-- Projection of a batch report's `successful` (0 for other bodies). -/
def LambdaResponse.reportSuccessful : LambdaResponse → Nat
  | ⟨_, .batchReport _ _ _ s _ _⟩ => s
  | _ => 0

/-- Projection of a batch report's `failed` (0 for other bodies). -/
def LambdaResponse.reportFailed : LambdaResponse → Nat
  | ⟨_, .batchReport _ _ _ _ f _⟩ => f
  | _ => 0

/-- A `FetchEnv` with the auth module importable and `TOKEN_URL` set. -/
def authedFetchEnv : FetchEnv :=
  ⟨true, some "https://token.example", sampleAuthEnv, .ok "{}" none⟩

/-- A Lambda batch whose single source is `petstore.yaml` and whose fetch,
conversion and upload all succeed. -/
def petstoreBatchEnv : LambdaBatchEnv :=
  { authAvailable := false, tokenUrlEnv := none,
    load := .ok "https://h/petstore.yaml",
    item := fun _ => goodItemEnv }

/-- A local environment with `CLIENT_ID` unset. -/
def noCredsAuthEnv : AuthEnv :=
  ⟨none, none, some "a_secret", none, .ok (some "an_id") (some "a_secret"),
    sampleTokenPost⟩

/-- A Lambda batch of two sources with authentication requested, the auth
module importable, and `TOKEN_URL` set. -/
def authBatchEnv : LambdaBatchEnv :=
  { authAvailable := true, tokenUrlEnv := some "https://token.example",
    load := .ok "https://h/a.json\nhttps://h/b.json",
    item := fun _ => goodItemEnv }

/-- A manual-invocation batch event requesting authentication. -/
def authBatchEvent : BatchEvent := { s3_bucket := "bkt", use_auth := some true }

/-- The CLI batch environment with the same two sources and auth settings. -/
def authCliFetchEnv : FetcherBatchEnv :=
  { load := .ok "https://h/a.json\nhttps://h/b.json",
    authAvailable := true, tokenUrlEnv := some "https://token.example",
    auth := fun _ => sampleAuthEnv, http := fun _ => .ok "{}" none }

/-- A two-source Lambda batch in which the first item's fetch times out and
the second succeeds end to end. -/
def scenarioBatchEnv : LambdaBatchEnv :=
  { authAvailable := false, tokenUrlEnv := none,
    load := .ok "https://h/slow.json\nhttps://h/fast.json",
    item := fun i => if i = 0 then timeoutItemEnv else goodItemEnv }

/-- The analogous two-source CLI fetch batch (first request times out). -/
def scenarioFetchEnv : FetcherBatchEnv :=
  { load := .ok "https://h/slow.json\nhttps://h/fast.json",
    authAvailable := false, tokenUrlEnv := none,
    auth := fun _ => sampleAuthEnv,
    http := fun i => if i = 0 then .timeout else .ok "{}" (some "application/json") }

/-- The scenario batch with the first item's timeout replaced by a success:
agrees with `scenarioBatchEnv` on the globals and on item 1. -/
def allGoodBatchEnv : LambdaBatchEnv :=
  { authAvailable := false, tokenUrlEnv := none,
    load := .ok "https://h/slow.json\nhttps://h/fast.json",
    item := fun _ => goodItemEnv }

/-- A two-source CLI fetch batch in which the first URL succeeds and the
second times out. -/
def mixedFetchEnv : FetcherBatchEnv :=
  { load := .ok "https://h/a.json\nhttps://h/b.json",
    authAvailable := false, tokenUrlEnv := none,
    auth := fun _ => sampleAuthEnv,
    http := fun i => if i = 0 then .ok "{}" (some "application/json") else .timeout }

/-- The corresponding `batch_convert.py` run: one fetch succeeds, converts
and saves; the other fetch fails. -/
def mixedBatchConvertEnv : BatchConvertEnv :=
  { urlsTxtExists := true, fetch := mixedFetchEnv,
    conv := fun _ => goodConvEnv, save := fun _ => none }

/-- A one-source GitHub Actions run whose fetch times out. -/
def sampleProcessOasEnv : ProcessOasEnv :=
  { load := .ok "https://h/a.json", use_auth := false, authAvailable := true,
    tokenUrlEnv := none, auth := fun _ => sampleAuthEnv,
    http := fun _ => .timeout,
    convHtml := fun _ => .ok { success := true, html := "<html></html>", filename := "a.html" },
    save := fun _ => none, uploadOk := fun _ => true }

/-! ## Structural lemmas about the batch loops -/

theorem lambdaItemRecord_url (bucket : String) (ie : ItemEnv) (url : String)
    (r : Except PyExn FetchResult) : (lambdaItemRecord bucket ie url r).url = url := by
  cases r with
  | error e => rfl
  | ok fr =>
    simp only [lambdaItemRecord]
    repeat' split
    all_goals rfl

theorem lambdaLoop_length (env : LambdaBatchEnv) (ua : Bool) (b : String)
    (urls : List String) : ∀ i, ((lambdaLoop env ua b urls i).1).length = urls.length := by
  induction urls with
  | nil => intro i; rfl
  | cons u rest ih => intro i; simp [lambdaLoop, ih]

theorem lambdaLoop_map_url (env : LambdaBatchEnv) (ua : Bool) (b : String)
    (urls : List String) :
    ∀ i, ((lambdaLoop env ua b urls i).1).map (fun r => r.url) = urls := by
  induction urls with
  | nil => intro i; rfl
  | cons u rest ih =>
    intro i
    simp [lambdaLoop, ih, lambdaProcessItem, lambdaItemRecord_url]

theorem lambdaLoop_counts (env : LambdaBatchEnv) (ua : Bool) (b : String)
    (urls : List String) :
    ∀ i, (lambdaLoop env ua b urls i).2.1 + (lambdaLoop env ua b urls i).2.2.1 = urls.length := by
  induction urls with
  | nil => intro i; rfl
  | cons u rest ih =>
    intro i
    have h := ih (i + 1)
    simp [lambdaLoop]
    split <;> omega

theorem lambdaLoop_get (env : LambdaBatchEnv) (ua : Bool) (b : String)
    (urls : List String) :
    ∀ i k, ((lambdaLoop env ua b urls i).1)[k]? =
      (urls[k]?).map (fun url =>
        (lambdaProcessItem env.authAvailable env.tokenUrlEnv ua b (env.item (i + k)) url).1) := by
  induction urls with
  | nil => intro i k; simp [lambdaLoop]
  | cons u rest ih =>
    intro i k
    cases k with
    | zero => simp [lambdaLoop]
    | succ k =>
      simp only [lambdaLoop, List.getElem?_cons_succ, Option.map, Nat.add_succ, Nat.succ_add]
      have h := ih (i + 1) k
      simp only [Nat.succ_add] at h
      exact h

theorem fetchAllLoop_ok (env : FetcherBatchEnv) (t : Nat) (ua : Bool)
    (tu : Option String) :
    ∀ (urls : List String) (i : Nat) (out : List FetchResult × Nat × Nat),
      (fetchAllLoop env t ua tu urls i).1 = .ok out →
      out.1.length = urls.length ∧ out.2.1 + out.2.2 = urls.length ∧
        out.1.map (fun r => r.url) = urls := by
  intro urls
  induction urls with
  | nil =>
    intro i out h
    simp [fetchAllLoop] at h
    simp [← h]
  | cons u rest ih =>
    intro i out h
    simp only [fetchAllLoop] at h
    split at h
    · exact absurd h (by simp)
    · split at h
      · exact absurd h (by simp)
      · rename_i r heq rs succ fail htail
        obtain ⟨h1, h2, h3⟩ := ih (i + 1) (rs, succ, fail) htail
        simp only [Except.ok.injEq] at h
        subst h
        refine ⟨by simpa using h1, ?_, by simpa using h3⟩
        simp only []
        split <;> simpa [Nat.add_comm, Nat.add_left_comm] using congrArg (· + 1) h2

theorem fetch_oas_auth_raises (env : FetchEnv) (url : String) (timeout : Nat)
    (token_url : Option String) (h1 : env.authAvailable = true)
    (h2 : pyTruthy token_url = true ∨ pyTruthy env.tokenUrlEnv = true) :
    (fetch_oas_from_url env url timeout true token_url).result =
      .error (.typeError tokenArityMsg) ∧
    (fetch_oas_from_url env url timeout true token_url).tokenCalls = 1 := by
  by_cases ht : pyTruthy token_url = true
  · simp [fetch_oas_from_url, h1, ht, pyCall, generate_bearer_token_paramCount,
      tokenArityMsg]
    decide
  · have h2' : pyTruthy env.tokenUrlEnv = true := by tauto
    simp [fetch_oas_from_url, h1, ht, h2', pyCall, generate_bearer_token_paramCount,
      tokenArityMsg]
    decide

theorem lambdaLoop_tokenCalls (env : LambdaBatchEnv) (b : String)
    (h1 : env.authAvailable = true) (h2 : pyTruthy env.tokenUrlEnv = true)
    (urls : List String) :
    ∀ i, (lambdaLoop env true b urls i).2.2.2 = urls.length := by
  induction urls with
  | nil => intro i; rfl
  | cons u rest ih =>
    intro i
    have hfetch := (fetch_oas_auth_raises ⟨env.authAvailable, env.tokenUrlEnv,
      (env.item i).auth, (env.item i).http⟩ u 30 none h1 (Or.inr h2)).2
    simp [lambdaLoop, lambdaProcessItem, ih (i + 1), hfetch]
    omega

theorem parseUrlsLoop_eq_filterMap (ls : List String) :
    parseUrlsLoop ls = ls.filterMap (fun l =>
      let line := pyStrip l
      if line ≠ "" && !(pyStartsWith line "#") then some (pyRstripDots line)
      else none) := by
  induction ls with
  | nil => rfl
  | cons l rest ih =>
    simp only [parseUrlsLoop, List.filterMap_cons, ih]
    split <;> simp_all

/-! ## Claim C2 -/

/-- C2: for every `fetch_oas_from_url` call with `use_auth=True` in which the
auth module is importable and a token URL is available (passed in or via the
`TOKEN_URL` environment variable), the call raises `TypeError` — the
zero-parameter `generate_bearer_token` is invoked with one argument, and
`TypeError` is not among the caught exception classes — instead of returning
a result dictionary, so no authenticated fetch can succeed. -/
theorem C2_authenticated_fetch_raises_TypeError (env : FetchEnv) (url : String)
    (timeout : Nat) (token_url : Option String)
    (h1 : env.authAvailable = true)
    (h2 : pyTruthy token_url = true ∨ pyTruthy env.tokenUrlEnv = true) :
    (fetch_oas_from_url env url timeout true token_url).result =
      .error (.typeError tokenArityMsg) ∧
    ∀ r : FetchResult, (fetch_oas_from_url env url timeout true token_url).result ≠ .ok r := by
  have h := fetch_oas_auth_raises env url timeout token_url h1 h2
  exact ⟨h.1, fun r hr => by simp [h.1] at hr⟩

theorem C2_authenticated_fetch_raises_TypeError_witness :
    (fetch_oas_from_url authedFetchEnv "https://h/a.json" 30 true none).result =
      .error (.typeError tokenArityMsg) :=
  (C2_authenticated_fetch_raises_TypeError authedFetchEnv "https://h/a.json" 30 none
    rfl (Or.inr (by decide))).1

/-! ## Claim C5 -/

/-- C5 counterexample: the loader is not guaranteed to return non-empty
entries — a line consisting solely of `'.'` characters survives the
empty/comment filter and is then stripped to the empty string by
`rstrip('.')`, so the source text `"."` yields exactly `[""]`. -/
theorem C5_counterexample :
    fetch_urls_parse "." = [""] ∧
    ¬ (∀ s ∈ fetch_urls_parse ".", s ≠ "") := by
  refine ⟨by decide, ?_⟩
  intro h
  exact h "" (by decide) rfl

/-- C5 (amended): the loader splits on newline, trims each line, discards
empty lines and lines whose first non-whitespace character is `#`, strips
trailing `'.'` characters from each remaining line, preserves order and does
not deduplicate (the `filterMap` characterization), and the example list
yields exactly its two URLs; however a kept line consisting solely of dots
yields an empty entry, so returned entries need not be non-empty. -/
theorem C5_loader_parsing_amended :
    (∀ content : String, fetch_urls_parse content =
      (pySplitNewline (pyStrip content)).filterMap (fun l =>
        let line := pyStrip l
        if line ≠ "" && !(pyStartsWith line "#") then some (pyRstripDots line)
        else none)) ∧
    fetch_urls_parse "# comment\n\nhttps://h/a.json\nhttps://h/b.json." =
      ["https://h/a.json", "https://h/b.json"] ∧
    (fetch_urls_from_file (.ok "# comment\n\nhttps://h/a.json\nhttps://h/b.json.")).urls =
      ["https://h/a.json", "https://h/b.json"] :=
  ⟨fun _content => parseUrlsLoop_eq_filterMap _, by decide, by decide⟩

/-! ## Claim C6 -/

/-- C6 counterexample: the published name is not in general the filename
with its extension replaced.  `batch_convert.py` (line 65) does not replace
`.yml`, so `petstore.yml` keeps its name instead of becoming
`petstore.html`; and the lambda naming (line 287) substring-replaces
everywhere, so `petstore.yaml.json` becomes `petstore.html.html` instead of
`petstore.yaml.html`. -/
theorem C6_counterexample :
    batch_convert_output_name "petstore.yml" = "petstore.yml" ∧
    spec_replace_extension "petstore.yml" = "petstore.html" ∧
    batch_convert_output_name "petstore.yml" ≠ spec_replace_extension "petstore.yml" ∧
    html_filename "petstore.yaml.json" = "petstore.html.html" ∧
    spec_replace_extension "petstore.yaml.json" = "petstore.yaml.html" ∧
    html_filename "petstore.yaml.json" ≠ spec_replace_extension "petstore.yaml.json" := by
  refine ⟨by decide, by decide, by decide, by decide, by decide, by decide⟩

/-- C6 (amended): the lambda path derives the output name by substring
replacement of `.yaml`, `.yml`, `.json` (in that order) with `.html` and
uploads under `html/<derivedName>`; for a filename such as `petstore.yaml`
whose only occurrence of these substrings is its final extension this equals
extension replacement, so a document fetched as `petstore.yaml` is published
as `petstore.html` under the key `html/petstore.html` (shown end-to-end on a
one-item batch).  The `batch_convert.py` local path replaces only `.yaml`
and `.json`, leaving `.yml` filenames unchanged. -/
theorem C6_output_naming_amended :
    (∀ f : String, s3_key_for f = "html/" ++ html_filename f) ∧
    html_filename "petstore.yaml" = "petstore.html" ∧
    s3_key_for "petstore.yaml" = "html/petstore.html" ∧
    ((batch_process_from_s3 petstoreBatchEnv { s3_bucket := "bkt" }).1.reportResults.map
      (fun r => (r.filename, r.s3_key, r.success))) =
      [("petstore.yaml", "html/petstore.html", true)] ∧
    batch_convert_output_name "petstore.yaml" = "petstore.html" ∧
    batch_convert_output_name "petstore.yml" = "petstore.yml" := by
  refine ⟨fun f => rfl, by decide, by decide, by decide, by decide, by decide⟩

/-! ## Claim C8 -/

/-- C8: when the external tool exits with status 0 but the expected output
file is absent, `OASConverter.convert` returns the distinct missing-output
failure dictionary (`error = "Output HTML file was not created"`,
converter.py lines 171-179), never a success result. -/
theorem C8_missing_output_is_failure (stdoutText stderrText content filename
    outputContent : String) (timeout : Nat) :
    (OASConverter.convert ⟨none, none, .completed 0 stdoutText stderrText, false,
      outputContent⟩ content filename timeout).success = false ∧
    (OASConverter.convert ⟨none, none, .completed 0 stdoutText stderrText, false,
      outputContent⟩ content filename timeout).error =
      "Output HTML file was not created" := by
  simp [OASConverter.convert]

/-! ## Claim C9 -/

/-- C9: in the non-managed path (no `AWS_LAMBDA_FUNCTION_NAME` marker, so the
secret store is never consulted), when `CLIENT_ID` or `CLIENT_SECRET` is
unset, token generation returns the credentials-unavailable failure and no
HTTP request is issued to the token endpoint (the request count is 0). -/
theorem C9_missing_env_credentials (env : AuthEnv)
    (hlocal : env.awsLambdaFunctionName = none)
    (hmissing : env.clientIdEnv = none ∨ env.clientSecretEnv = none) :
    (generate_bearer_token env).1.success = false ∧
    (generate_bearer_token env).1.error =
      "Token generation failed: " ++ missingEnvCredsMsg ∧
    (generate_bearer_token env).2 = 0 := by
  rcases hmissing with h | h <;>
    simp [generate_bearer_token, get_credentials, hlocal, get_credentials_from_env, h,
      pyTruthy]

theorem C9_missing_env_credentials_witness :
    (generate_bearer_token noCredsAuthEnv).1.success = false ∧
    (generate_bearer_token noCredsAuthEnv).2 = 0 :=
  ⟨(C9_missing_env_credentials noCredsAuthEnv rfl (Or.inl rfl)).1,
   (C9_missing_env_credentials noCredsAuthEnv rfl (Or.inl rfl)).2.2⟩

/-! ## Claim C10 -/

/-- C10: when the handler receives an object-storage event notification with
multiple records, only the first record determines the outcome: replacing
every record after the first by any other records (whether or not their keys
name a source-list file) leaves the handler's response unchanged. -/
theorem C10_only_first_record_processed (env : LambdaBatchEnv) (r : S3Record)
    (rest rest' : List S3Record) (sb uf : Option String) (ua vb : Option Bool) :
    lambda_handler env ⟨some (r :: rest), sb, uf, ua, vb⟩ =
      lambda_handler env ⟨some (r :: rest'), sb, uf, ua, vb⟩ := rfl

/-! ## Claim C1 -/

/-- C1 counterexample: on an authenticated Lambda batch of two sources the
call expression `generate_bearer_token(...)` is evaluated twice — once
inside each item's fetch — not at most once per batch run, and nothing is
issued before the per-item loop. -/
theorem C1_counterexample :
    (batch_process_from_s3 authBatchEnv authBatchEvent).2 = 2 ∧
    ¬ ((batch_process_from_s3 authBatchEnv authBatchEvent).2 ≤ 1) := by
  exact ⟨by decide, by decide⟩

/-- C1 (amended): token issuance is attempted inside the per-item loop, not
once before it: in a Lambda batch with authentication requested, the auth
module importable and `TOKEN_URL` set, the token call expression is
evaluated once per item — `n` times for `n` sources — and no token is
resolved before the loop or reused.  (Each evaluation raises `TypeError`, so
in the CLI batch path, whose loop has no per-item handler, the first item's
fetch aborts the whole run after a single evaluation: shown on the same
two-source list.) -/
theorem C1_token_issuance_amended (env : LambdaBatchEnv) (event : BatchEvent)
    (content : String)
    (hauth : event.use_auth = some true)
    (h1 : env.authAvailable = true)
    (h2 : pyTruthy env.tokenUrlEnv = true)
    (hload : env.load = .ok content) :
    (batch_process_from_s3 env event).2 = (fetch_urls_parse content).length ∧
    ((fetch_all_from_urls_file authCliFetchEnv 30 true none).1 =
      .error (.typeError tokenArityMsg) ∧
     (fetch_all_from_urls_file authCliFetchEnv 30 true none).2 = 1) := by
  refine ⟨?_, by rfl, by decide⟩
  simp [batch_process_from_s3, hload, fetch_urls_from_file, hauth,
    lambdaLoop_tokenCalls env event.s3_bucket h1 h2]

theorem C1_token_issuance_amended_witness :
    (batch_process_from_s3 authBatchEnv authBatchEvent).2 =
      (fetch_urls_parse "https://h/a.json\nhttps://h/b.json").length :=
  (C1_token_issuance_amended authBatchEnv authBatchEvent
    "https://h/a.json\nhttps://h/b.json" rfl rfl (by decide) rfl).1

/-! ## Claim C3 -/

/-- C3: per-item failure isolation.  (1) In `_batch_process_from_s3`, item
`i`'s recorded outcome depends only on the batch's shared configuration and
item `i`'s own external behaviour: two runs whose environments agree on the
globals and on item `i` — but may differ arbitrarily, including timeouts and
raised exceptions, on every other item — record the same outcome for `i`.
(2) On sources `[slow→timeout, fast→success]` the Lambda report shows the
first item failed and the second succeeded, with one failure and one
success counted.  (3) The same scenario through `fetch_all_from_urls_file`
likewise records the timeout failure for the first URL only. -/
theorem C3_item_isolation :
    (∀ (e1 e2 : LambdaBatchEnv) (event : BatchEvent) (i : Nat),
      e1.authAvailable = e2.authAvailable → e1.tokenUrlEnv = e2.tokenUrlEnv →
      e1.load = e2.load → e1.item i = e2.item i →
      ((batch_process_from_s3 e1 event).1.reportResults)[i]? =
        ((batch_process_from_s3 e2 event).1.reportResults)[i]?) ∧
    ((batch_process_from_s3 scenarioBatchEnv { s3_bucket := "bkt" }).1.reportResults.map
        (fun r => (r.url, r.success)) =
      [("https://h/slow.json", false), ("https://h/fast.json", true)] ∧
     (batch_process_from_s3 scenarioBatchEnv { s3_bucket := "bkt" }).1.reportSuccessful = 1 ∧
     (batch_process_from_s3 scenarioBatchEnv { s3_bucket := "bkt" }).1.reportFailed = 1) ∧
    ((fetch_all_from_urls_file scenarioFetchEnv 30 false none).1.map
        (fun out => (out.results.map (fun r => (r.url, r.success)),
          out.successful, out.failed))) =
      .ok ([("https://h/slow.json", false), ("https://h/fast.json", true)], 1, 1) := by
  refine ⟨?_, ⟨by decide, by decide, by decide⟩, by rfl⟩
  intro e1 e2 event i hA hT hL hI
  cases hload : e2.load with
  | error err =>
    simp [batch_process_from_s3, hL, hload, fetch_urls_from_file,
      LambdaResponse.reportResults]
  | ok content =>
    simp only [batch_process_from_s3, hL, hload, fetch_urls_from_file,
      Bool.not_true, Bool.false_eq_true, if_false, LambdaResponse.reportResults]
    rw [lambdaLoop_get, lambdaLoop_get]
    simp [hA, hT, hI]

theorem C3_item_isolation_witness :
    ((batch_process_from_s3 scenarioBatchEnv { s3_bucket := "bkt" }).1.reportResults)[1]? =
      ((batch_process_from_s3 allGoodBatchEnv { s3_bucket := "bkt" }).1.reportResults)[1]? :=
  C3_item_isolation.1 scenarioBatchEnv allGoodBatchEnv { s3_bucket := "bkt" } 1
    rfl rfl rfl (by decide)

/-! ## Claim C4 -/

/-- C4: whenever a batch reaches its report, the report satisfies
`successful + failed = total`, its result list has exactly `total` entries,
and the entries appear in source-list order (their URLs are exactly the
loaded list, in order).  Stated for `_batch_process_from_s3` (which also
reports status 200 then) and for `fetch_all_from_urls_file` (for any run of
it that returns a result dictionary with `success = True`). -/
theorem C4_report_counts :
    (∀ (env : LambdaBatchEnv) (event : BatchEvent) (content : String),
      env.load = .ok content →
      (batch_process_from_s3 env event).1.statusCode = 200 ∧
      (batch_process_from_s3 env event).1.reportSuccessful +
        (batch_process_from_s3 env event).1.reportFailed =
        (batch_process_from_s3 env event).1.reportTotal ∧
      (batch_process_from_s3 env event).1.reportResults.length =
        (batch_process_from_s3 env event).1.reportTotal ∧
      (batch_process_from_s3 env event).1.reportResults.map (fun r => r.url) =
        fetch_urls_parse content) ∧
    (∀ (fenv : FetcherBatchEnv) (t : Nat) (ua : Bool) (tu : Option String)
      (fcontent : String) (out : BatchFetchResult),
      fenv.load = .ok fcontent →
      (fetch_all_from_urls_file fenv t ua tu).1 = .ok out →
      out.success = true →
      out.successful + out.failed = out.total ∧
      out.results.length = out.total ∧
      out.results.map (fun r => r.url) = fetch_urls_parse fcontent ∧
      out.total = (fetch_urls_parse fcontent).length) := by
  constructor
  · intro env event content hload
    simp [batch_process_from_s3, hload, fetch_urls_from_file,
      LambdaResponse.reportResults, LambdaResponse.reportTotal,
      LambdaResponse.reportSuccessful, LambdaResponse.reportFailed,
      lambdaLoop_counts, lambdaLoop_length, lambdaLoop_map_url]
  · intro fenv t ua tu fcontent out hload hok _hsucc
    simp only [fetch_all_from_urls_file, hload, fetch_urls_from_file] at hok
    simp only [Bool.not_true, Bool.false_eq_true, if_false] at hok
    split at hok
    · exact absurd hok (by simp)
    · rename_i rs succ fail heq
      simp only [Except.ok.injEq] at hok
      subst hok
      have h := fetchAllLoop_ok fenv t ua tu (fetch_urls_parse fcontent) 0
        (rs, succ, fail) heq
      exact ⟨by simpa using h.2.1, by simpa using h.1, by simpa using h.2.2, rfl⟩

theorem C4_report_counts_witness :
    (batch_process_from_s3 scenarioBatchEnv { s3_bucket := "bkt" }).1.reportSuccessful +
      (batch_process_from_s3 scenarioBatchEnv { s3_bucket := "bkt" }).1.reportFailed =
      (batch_process_from_s3 scenarioBatchEnv { s3_bucket := "bkt" }).1.reportTotal :=
  (C4_report_counts.1 scenarioBatchEnv { s3_bucket := "bkt" }
    "https://h/slow.json\nhttps://h/fast.json" rfl).2.1

/-! ## Claim C7 -/

/-- C7 counterexample: the overall-failure convention does not hold across
the repository.  A `batch_convert.py` run whose report counts 1 failure
exits 0 (its exit is decided by `converted > 0`, lines 92-97), and the
Lambda batch returns status code 200 even though its report counts a
failure. -/
theorem C7_counterexample :
    batch_convert_main mixedBatchConvertEnv = .report 2 1 1 1 0 ∧
    ((batch_process_from_s3 scenarioBatchEnv { s3_bucket := "bkt" }).1.reportFailed = 1 ∧
     (batch_process_from_s3 scenarioBatchEnv { s3_bucket := "bkt" }).1.statusCode = 200) := by
  exact ⟨by decide, by decide, by decide⟩

/-- C7 (amended): the "non-zero status iff `failed > 0`" convention holds
only for the GitHub Actions script: `process_oas.main` exits non-zero iff
its report's failed count is positive.  `batch_convert.main` instead exits 0
iff at least one file was converted (so a partially failed run exits 0, and
a run that converted nothing exits 1 even with no failures), and
`_batch_process_from_s3` returns status 200 whenever it completes its loop,
regardless of the failed count. -/
theorem C7_exit_convention_amended :
    (∀ (env : ProcessOasEnv) (t s f e : Nat),
      process_oas_main env = .report t s f e → (e ≠ 0 ↔ f > 0)) ∧
    (∀ (env : BatchConvertEnv) (t s c f e : Nat),
      batch_convert_main env = .report t s c f e → (e = 0 ↔ c > 0)) ∧
    (∀ (env : LambdaBatchEnv) (event : BatchEvent) (content : String),
      env.load = .ok content →
      (batch_process_from_s3 env event).1.statusCode = 200) := by
  refine ⟨?_, ?_, ?_⟩
  · intro env t s f e h
    simp only [process_oas_main] at h
    split at h
    · exact absurd h (by simp)
    · simp only [ProcessOasOut.report.injEq] at h
      obtain ⟨-, -, hf, he⟩ := h
      subst hf
      subst he
      by_cases hpos : (processOasLoop env (fetch_urls_from_file env.load).urls 0).2 > 0 <;>
        simp [hpos]
  · intro env t s c f e h
    unfold batch_convert_main at h
    split at h
    · exact absurd h (by simp)
    · split at h
      · exact absurd h (by simp)
      · rename_i fr _
        split at h
        · exact absurd h (by simp)
        · split at h
          · exact absurd h (by simp)
          · rename_i cf _
            simp only [BatchConvertOut.report.injEq] at h
            obtain ⟨-, -, hc, -, he⟩ := h
            subst hc he
            by_cases hpos : cf.1 > 0 <;> simp [hpos]
  · intro env event content hload
    simp [batch_process_from_s3, hload, fetch_urls_from_file]

theorem C7_exit_convention_amended_witness :
    ((1 : Nat) ≠ 0 ↔ (1 : Nat) > 0) ∧ ((0 : Nat) = 0 ↔ (1 : Nat) > 0) ∧
    (batch_process_from_s3 scenarioBatchEnv { s3_bucket := "bkt" }).1.statusCode = 200 :=
  ⟨C7_exit_convention_amended.1 sampleProcessOasEnv 1 0 1 1 (by decide),
   C7_exit_convention_amended.2.1 mixedBatchConvertEnv 2 1 1 1 0 (by decide),
   C7_exit_convention_amended.2.2 scenarioBatchEnv { s3_bucket := "bkt" }
     "https://h/slow.json\nhttps://h/fast.json" rfl⟩
